import Mathlib

/-!
Shallow embedding of `src/jni/com_android_bluetooth_iap2.cpp`, the JNI
binding for the Bluetooth IAP2 profile.

Modelling conventions:
* JNI / native pointers that are only tested against NULL are `Option Nat`
  (the `Nat` is an opaque identity).
* JNI environment pointers (`getCallbackEnv()`, `AndroidRuntime::getJNIEnv()`)
  are `Option Nat`, compared by identity exactly as the C code does.
* The two pieces of process-global state, `sBluetoothIap2Interface` and
  `mCallbacksObj`, form the `Iap2State` structure; each native entry point is
  a pure function from its inputs and the current state to its result,
  together with the list of externally visible side effects (`Action`) it
  performs, in program order.  Logging (`ALOGE`/`ALOGW`/`ALOGI`) is not an
  externally visible effect and is not recorded.
* Outcomes of fallible environment calls (`GetByteArrayElements`,
  `NewByteArray`, `jniCreateFileDescriptor`, module lookup, profile lookup,
  `init` status) are explicit parameters, `Option`/`Bool`/status values.
* Raw byte buffers handed to callbacks by the native stack are modelled as
  memories `Nat → Nat`; `SetByteArrayRegion(buf, 0, len, data)` becomes
  `(List.range len).map data`, the pure copy of the first `len` bytes.
-/

namespace Iap2

/-- `BT_STATUS_SUCCESS` from the Bluetooth HAL status enumeration. -/
def BT_STATUS_SUCCESS : Nat := 0

/-- `EINVAL`, the errno passed to `jniThrowIOException`. -/
def EINVAL : Nat := 22

/-- `btiap2_connection_state_t` (hardware/bt_iap2.h): the connection-level
state enumeration carried by `connection_state_callback`. -/
inductive ConnectionState
  | disconnected
  | connecting
  | connected
  | disconnecting
deriving DecidableEq, Repr

/-- `btiap2_service_state_t` (hardware/bt_iap2.h): the service-level state
enumeration carried by `service_state_callback`.  The C code only ever
compares it against `BTIAP2_SERVICE_STATE_CONNECTED`. -/
inductive ServiceState
  | disconnected
  | connecting
  | connected
  | disconnecting
deriving DecidableEq, Repr

/-- Externally visible side effects of the native entry points, in program
order: calls into the native IAP2 interface (`cleanup`, `init`, `connect`,
`disconnect`, `send_data`), JNI global-reference management on the callbacks
object, and `jniThrowIOException`. -/
inductive Action
  | interfaceCleanup (iface : Nat)
  | interfaceInit (iface : Nat)
  | deleteGlobalRef (obj : Nat)
  | newGlobalRef (obj : Nat)
  | transportConnect (addr : List Nat)
  | transportDisconnect (addr : List Nat)
  | transportSendData (len : Int) (buf : List Nat)
  | throwIOException (errno : Nat)
deriving DecidableEq, Repr

/-- The process-wide mutable state of the binding: the two static globals
`sBluetoothIap2Interface` and `mCallbacksObj` (each NULL or an opaque
identity).  `sCallbackEnv` is deliberately not part of the persistent state:
`checkCallbackThread` overwrites it from `getCallbackEnv()` on every call, so
its previous value is never read. -/
structure Iap2State where
  sBluetoothIap2Interface : Option Nat
  mCallbacksObj : Option Nat
deriving DecidableEq, Repr

/-- `checkCallbackThread`: re-resolves the designated callback environment via
`getCallbackEnv()` (never using a cached value), fetches the current thread's
JNI environment, and succeeds only when the two are equal and non-NULL.
`callbackEnv` is the fresh `getCallbackEnv()` result, `currentEnv` the fresh
`AndroidRuntime::getJNIEnv()` result. -/
def checkCallbackThread (callbackEnv currentEnv : Option Nat) : Bool :=
  if callbackEnv != currentEnv || callbackEnv == none then false else true

/-- Per-delivery environment of a callback: the two freshly resolved JNI
environments consulted by `checkCallbackThread`, whether `NewByteArray`
succeeds, and whether `jniCreateFileDescriptor` succeeds. -/
structure CbEnv where
  callbackEnv : Option Nat
  currentEnv : Option Nat
  newByteArrayOk : Bool
  createFdOk : Bool

/-- The listener invocations (`CallVoidMethod` on `mCallbacksObj`) a callback
performs, with the exact arguments delivered. -/
inductive Delivered
  | onConnectionStateChanged (state : ConnectionState) (addr : List Nat)
  | onServiceStateChanged (state : ServiceState) (addr : List Nat) (fd : Option Int)
  | onDataRx (len : Nat) (buf : List Nat)
  | onError (code : Nat) (msg : String)
deriving DecidableEq, Repr

/-- `connection_state_callback`: after `CHECK_CALLBACK_ENV` and successful
allocation of the address array, delivers `onConnectionStateChanged` with the
state and a copy of the 6-byte address.  The returned list is the sequence of
listener invocations: empty when the context check or the allocation fails. -/
def connection_state_callback (env : CbEnv) (state : ConnectionState)
    (bd_addr : List Nat) : List Delivered :=
  if !checkCallbackThread env.callbackEnv env.currentEnv then []
  else if !env.newByteArrayOk then []
  else [Delivered.onConnectionStateChanged state bd_addr]

/-- `service_state_callback`: after `CHECK_CALLBACK_ENV` and address-array
allocation, builds a `java.io.FileDescriptor` from the raw `fd` only when
`state == BTIAP2_SERVICE_STATE_CONNECTED`; if that construction fails the
local ref is dropped and the function returns without invoking the listener.
Otherwise `onServiceStateChanged(state, addr, fileDescriptor)` is delivered,
with `fileDescriptor` NULL (`none`) for every non-CONNECTED state. -/
def service_state_callback (env : CbEnv) (state : ServiceState)
    (bd_addr : List Nat) (fd : Int) : List Delivered :=
  if !checkCallbackThread env.callbackEnv env.currentEnv then []
  else if !env.newByteArrayOk then []
  else if state = ServiceState.connected then
    if !env.createFdOk then []
    else [Delivered.onServiceStateChanged state bd_addr (some fd)]
  else [Delivered.onServiceStateChanged state bd_addr none]

/-- `data_callback`: after `CHECK_CALLBACK_ENV`, allocates a fresh `len`-byte
array (failure drops the event) and copies exactly the first `len` bytes of
the raw buffer into it (`SetByteArrayRegion(buf, 0, len, data)`), then
delivers `onDataRx(len, buf)`.  The raw buffer is the memory `data : Nat → Nat`;
the delivered array is the pure value `(List.range len).map data`. -/
def data_callback (env : CbEnv) (len : Nat) (data : Nat → Nat) : List Delivered :=
  if !checkCallbackThread env.callbackEnv env.currentEnv then []
  else if !env.newByteArrayOk then []
  else [Delivered.onDataRx len ((List.range len).map data)]

/-- `error_callback`: after `CHECK_CALLBACK_ENV`, delivers
`onError(error_code, error_string)` (the C code does not test the
`NewStringUTF` result). -/
def error_callback (env : CbEnv) (error_code : Nat) (error_string : String) :
    List Delivered :=
  if !checkCallbackThread env.callbackEnv env.currentEnv then []
  else [Delivered.onError error_code error_string]

/-- Environment of `initializeNative`: whether `getBluetoothInterface()`
returns a module, the result of `get_profile_interface(BT_PROFILE_IAP2_ID)`,
the status returned by `init(&sBluetoothIap2Callbacks)`, and the identity of
the global reference `NewGlobalRef(object)` would create. -/
structure InitEnv where
  moduleLoaded : Bool
  profileIface : Option Nat
  initStatus : Nat
  newGlobalRefId : Nat

/-- `initializeNative`: returns if the Bluetooth module is not loaded;
otherwise cleans up a previously active interface and releases a previously
registered callbacks object, then acquires the IAP2 profile interface
(failure leaves the binding uninitialized), registers the callback table via
`init` (non-success discards the interface reference), and finally retains a
global reference to the new callbacks object. -/
def initializeNative (env : InitEnv) (st : Iap2State) : Iap2State × List Action :=
  if !env.moduleLoaded then (st, [])
  else
    let p1 : Iap2State × List Action :=
      match st.sBluetoothIap2Interface with
      | some i => ({ st with sBluetoothIap2Interface := none }, [Action.interfaceCleanup i])
      | none => (st, [])
    let p2 : Iap2State × List Action :=
      match p1.1.mCallbacksObj with
      | some o => ({ p1.1 with mCallbacksObj := none }, p1.2 ++ [Action.deleteGlobalRef o])
      | none => p1
    match env.profileIface with
    | none => p2
    | some i =>
      if env.initStatus ≠ BT_STATUS_SUCCESS then
        ({ p2.1 with sBluetoothIap2Interface := none }, p2.2 ++ [Action.interfaceInit i])
      else
        ({ p2.1 with sBluetoothIap2Interface := some i,
                     mCallbacksObj := some env.newGlobalRefId },
         p2.2 ++ [Action.interfaceInit i, Action.newGlobalRef env.newGlobalRefId])

/-- `cleanupNative`: returns if the Bluetooth module is not loaded; otherwise
invokes `cleanup()` on an active interface and clears the reference, and
deletes the global reference to a registered callbacks object and clears it. -/
def cleanupNative (moduleLoaded : Bool) (st : Iap2State) : Iap2State × List Action :=
  if !moduleLoaded then (st, [])
  else
    let p1 : Iap2State × List Action :=
      match st.sBluetoothIap2Interface with
      | some i => ({ st with sBluetoothIap2Interface := none }, [Action.interfaceCleanup i])
      | none => (st, [])
    match p1.1.mCallbacksObj with
    | some o => ({ p1.1 with mCallbacksObj := none }, p1.2 ++ [Action.deleteGlobalRef o])
    | none => p1

/-- `connectIap2Native`: fails immediately when uninitialized; an unreadable
address array (`GetByteArrayElements` NULL, modelled `addrRead = none`) throws
an IOException with `EINVAL` and fails; otherwise forwards the address bytes
to `connect` and returns whether the native status is `BT_STATUS_SUCCESS`.
`status` is the native interface's return value, consulted only if the call
is made. -/
def connectIap2Native (st : Iap2State) (addrRead : Option (List Nat))
    (status : Nat) : Bool × List Action :=
  match st.sBluetoothIap2Interface with
  | none => (false, [])
  | some _ =>
    match addrRead with
    | none => (false, [Action.throwIOException EINVAL])
    | some addr => (decide (status = BT_STATUS_SUCCESS), [Action.transportConnect addr])

/-- `disconnectIap2Native`: symmetric to `connectIap2Native`, forwarding to
`disconnect`. -/
def disconnectIap2Native (st : Iap2State) (addrRead : Option (List Nat))
    (status : Nat) : Bool × List Action :=
  match st.sBluetoothIap2Interface with
  | none => (false, [])
  | some _ =>
    match addrRead with
    | none => (false, [Action.throwIOException EINVAL])
    | some addr => (decide (status = BT_STATUS_SUCCESS), [Action.transportDisconnect addr])

/-- `sendDataNative`: fails immediately when uninitialized; an unreadable data
array throws an IOException with `EINVAL` and fails; otherwise forwards the
caller-supplied `len` (a `jint`, passed through unexamined) together with the
array contents to `send_data`, and returns whether the native status is
`BT_STATUS_SUCCESS`.  No comparison of `len` against the array's length is
performed anywhere in the function. -/
def sendDataNative (st : Iap2State) (len : Int) (dataRead : Option (List Nat))
    (status : Nat) : Bool × List Action :=
  match st.sBluetoothIap2Interface with
  | none => (false, [])
  | some _ =>
    match dataRead with
    | none => (false, [Action.throwIOException EINVAL])
    | some buf => (decide (status = BT_STATUS_SUCCESS), [Action.transportSendData len buf])

end Iap2

namespace Claims

open Iap2

/-- Claim C1 as stated fails on the code: `sendDataNative(len=5, data=[0,1])`
with a readable two-byte buffer and an initialized interface raises no
argument error at all and forwards the claimed length 5 together with the
two-byte buffer to `send_data` (an over-read on the native side), returning
the transport's status.  So the operation neither raises an argument error
nor withholds the payload from the transport. -/
theorem sendData_short_buffer_counterexample :
    (sendDataNative ⟨some 1, none⟩ 5 (some [0, 1]) BT_STATUS_SUCCESS).2
        = [Action.transportSendData 5 [0, 1]]
      ∧ Action.throwIOException EINVAL ∉
          (sendDataNative ⟨some 1, none⟩ 5 (some [0, 1]) BT_STATUS_SUCCESS).2
      ∧ (sendDataNative ⟨some 1, none⟩ 5 (some [0, 1]) BT_STATUS_SUCCESS).1 = true := by
  decide

/-- Claim C1, amended: whenever the interface is initialized and the buffer
array is readable, `sendDataNative` forwards the caller-supplied `len` and the
buffer contents to the transport unconditionally — it never compares `len`
with the buffer's length, so a buffer holding fewer than `len` bytes is
forwarded as-is (no argument error, no truncation check).  The only argument
error is `EINVAL` when the buffer cannot be read at all. -/
theorem sendData_forwards_length_unchecked (st : Iap2State) (i : Nat) (len : Int)
    (buf : List Nat) (status : Nat)
    (hIface : st.sBluetoothIap2Interface = some i) :
    sendDataNative st len (some buf) status
      = (decide (status = BT_STATUS_SUCCESS), [Action.transportSendData len buf]) := by
  simp [sendDataNative, hIface]

/-- Witness for `sendData_forwards_length_unchecked` at a concrete short
buffer. -/
theorem sendData_forwards_length_unchecked_witness :
    sendDataNative ⟨some 1, none⟩ 5 (some [0, 1]) BT_STATUS_SUCCESS
      = (decide (BT_STATUS_SUCCESS = BT_STATUS_SUCCESS),
         [Action.transportSendData 5 [0, 1]]) :=
  sendData_forwards_length_unchecked ⟨some 1, none⟩ 1 5 [0, 1] BT_STATUS_SUCCESS rfl

/-- Claim C2: whenever `checkCallbackThread` fails — the freshly re-resolved
designated environment differs from the current one, or cannot be resolved —
every one of the four callbacks performs no listener invocation at all (and,
the model returning the complete invocation sequence, nothing is queued for
later replay). -/
theorem context_mismatch_drops_every_event (env : CbEnv) (cs : ConnectionState)
    (ss : ServiceState) (addr : List Nat) (fd : Int) (len : Nat) (data : Nat → Nat)
    (code : Nat) (msg : String)
    (h : checkCallbackThread env.callbackEnv env.currentEnv = false) :
    connection_state_callback env cs addr = []
      ∧ service_state_callback env ss addr fd = []
      ∧ data_callback env len data = []
      ∧ error_callback env code msg = [] := by
  simp [connection_state_callback, service_state_callback, data_callback,
        error_callback, h]

/-- Witness for `context_mismatch_drops_every_event`: the designated
environment cannot be resolved (`getCallbackEnv()` NULL). -/
theorem context_mismatch_drops_every_event_witness :
    connection_state_callback ⟨none, some 0, true, true⟩ ConnectionState.connected [1] = []
      ∧ service_state_callback ⟨none, some 0, true, true⟩ ServiceState.connected [1] 7 = []
      ∧ data_callback ⟨none, some 0, true, true⟩ 3 (fun _ => 0) = []
      ∧ error_callback ⟨none, some 0, true, true⟩ 2 "e" = [] :=
  context_mismatch_drops_every_event ⟨none, some 0, true, true⟩
    ConnectionState.connected ServiceState.connected [1] 7 3 (fun _ => 0) 2 "e" rfl

/-- Claim C3: in every `onServiceStateChanged` invocation actually delivered
by `service_state_callback`, the file-descriptor argument is present exactly
when the delivered state is CONNECTED, and absent for every other state. -/
theorem handle_present_iff_connected (env : CbEnv) (state : ServiceState)
    (addr : List Nat) (fd : Int) (s : ServiceState) (a : List Nat) (h : Option Int)
    (hmem : Delivered.onServiceStateChanged s a h ∈ service_state_callback env state addr fd) :
    h.isSome = true ↔ s = ServiceState.connected := by
  unfold service_state_callback at hmem
  split at hmem
  · simp at hmem
  · split at hmem
    · simp at hmem
    · split at hmem
      · split at hmem
        · simp at hmem
        · simp at hmem
          obtain ⟨hs, -, hh⟩ := hmem
          subst hs
          subst hh
          simp_all
      · simp at hmem
        obtain ⟨hs, -, hh⟩ := hmem
        subst hs
        subst hh
        simp_all

/-- Witness for `handle_present_iff_connected` at a concrete CONNECTED
delivery carrying fd 7. -/
theorem handle_present_iff_connected_witness :
    (some (7 : Int)).isSome = true ↔ ServiceState.connected = ServiceState.connected :=
  handle_present_iff_connected ⟨some 0, some 0, true, true⟩ ServiceState.connected
    [1] 7 ServiceState.connected [1] (some 7) (by decide)

/-- Claim C4: when the state is CONNECTED but `jniCreateFileDescriptor` fails,
`service_state_callback` aborts the delivery entirely — no listener
invocation occurs for that event. -/
theorem fd_construction_failure_aborts_delivery (env : CbEnv) (addr : List Nat)
    (fd : Int) (h : env.createFdOk = false) :
    service_state_callback env ServiceState.connected addr fd = [] := by
  simp [service_state_callback, h]

/-- Witness for `fd_construction_failure_aborts_delivery`. -/
theorem fd_construction_failure_aborts_delivery_witness :
    service_state_callback ⟨some 0, some 0, true, false⟩ ServiceState.connected [1] 7 = [] :=
  fd_construction_failure_aborts_delivery ⟨some 0, some 0, true, false⟩ [1] 7 rfl

/-- Claim C5: every delivered `onDataRx` (context check passed, array
allocation succeeded) carries exactly one invocation whose buffer is the pure
value `(List.range len).map data` — a copy of exactly the bytes
`data 0, …, data (len-1)`, of length `len`.  Since the copy is determined
solely by the first `len` bytes of the raw buffer at delivery time, delivering
from any later mutation `dataLater` that agrees on those indices yields the
identical buffer: the delivered copy is independent of the original memory. -/
theorem dataRx_delivers_exact_independent_copy (env : CbEnv) (len : Nat)
    (data dataLater : Nat → Nat)
    (hchk : checkCallbackThread env.callbackEnv env.currentEnv = true)
    (halloc : env.newByteArrayOk = true)
    (hagree : ∀ i, i < len → data i = dataLater i) :
    data_callback env len data = [Delivered.onDataRx len ((List.range len).map data)]
      ∧ ((List.range len).map data).length = len
      ∧ (∀ i, ∀ hi : i < len,
          ((List.range len).map data).get ⟨i, by simpa using hi⟩ = data i)
      ∧ data_callback env len dataLater = data_callback env len data := by
  have hmap : (List.range len).map dataLater = (List.range len).map data :=
    List.map_congr_left fun i hi => (hagree i (List.mem_range.mp hi)).symm
  refine ⟨by simp [data_callback, hchk, halloc], by simp, ?_, ?_⟩
  · intro i hi
    simp
  · simp [data_callback, hchk, halloc, hmap]

/-- Witness for `dataRx_delivers_exact_independent_copy`: a three-byte
delivery from memory `i ↦ i + 10`, later overwritten outside `[0, 3)`. -/
theorem dataRx_delivers_exact_independent_copy_witness :
    data_callback ⟨some 0, some 0, true, true⟩ 3 (fun i => i + 10)
      = [Delivered.onDataRx 3 [10, 11, 12]] := by
  have h := dataRx_delivers_exact_independent_copy ⟨some 0, some 0, true, true⟩ 3
    (fun i => i + 10) (fun i => if i < 3 then i + 10 else 99) rfl rfl (by decide)
  simpa using h.1

/-- Claim C6: `cleanupNative` is idempotent.  For every binding state and
every (fixed) availability of the Bluetooth module, running `cleanupNative` a
second time on the state the first run produced leaves that state unchanged
and performs no actions at all — in particular no interface cleanup and no
listener release. -/
theorem cleanup_idempotent (moduleLoaded : Bool) (st : Iap2State) :
    cleanupNative moduleLoaded (cleanupNative moduleLoaded st).1
      = ((cleanupNative moduleLoaded st).1, []) := by
  obtain ⟨i, o⟩ := st
  cases moduleLoaded <;> cases i <;> cases o <;> simp [cleanupNative]

/-- Claim C7: a successful `initializeNative` that finds an existing listener
registration deletes the old global reference strictly before creating the
new one (the ordered pair is a sublist of the action trace), and the final
state holds exactly the new listener — so two registrations are never
simultaneously active. -/
theorem old_listener_released_before_new_retained (env : InitEnv) (st : Iap2State)
    (oldObj i : Nat)
    (hOld : st.mCallbacksObj = some oldObj)
    (hLoaded : env.moduleLoaded = true)
    (hProf : env.profileIface = some i)
    (hStatus : env.initStatus = BT_STATUS_SUCCESS) :
    (initializeNative env st).1.mCallbacksObj = some env.newGlobalRefId
      ∧ List.Sublist [Action.deleteGlobalRef oldObj, Action.newGlobalRef env.newGlobalRefId]
          (initializeNative env st).2 := by
  obtain ⟨iface, o⟩ := st
  cases hOld
  cases iface <;>
    simp [initializeNative, hLoaded, hProf, hStatus]

/-- Witness for `old_listener_released_before_new_retained`: re-initializing
over an active interface 2 and listener 7, acquiring interface 4 and listener
reference 9. -/
theorem old_listener_released_before_new_retained_witness :
    (initializeNative ⟨true, some 4, 0, 9⟩ ⟨some 2, some 7⟩).1.mCallbacksObj = some 9
      ∧ List.Sublist [Action.deleteGlobalRef 7, Action.newGlobalRef 9]
          (initializeNative ⟨true, some 4, 0, 9⟩ ⟨some 2, some 7⟩).2 :=
  old_listener_released_before_new_retained ⟨true, some 4, 0, 9⟩ ⟨some 2, some 7⟩
    7 4 rfl rfl rfl rfl

/-- Claim C8: with no active native interface, `connectIap2Native`,
`disconnectIap2Native` and `sendDataNative` each return failure with an empty
action trace — no call of any kind reaches the native transport. -/
theorem uninitialized_operations_fail_without_transport_call (st : Iap2State)
    (addrRead₁ addrRead₂ dataRead : Option (List Nat)) (len : Int)
    (status₁ status₂ status₃ : Nat)
    (h : st.sBluetoothIap2Interface = none) :
    connectIap2Native st addrRead₁ status₁ = (false, [])
      ∧ disconnectIap2Native st addrRead₂ status₂ = (false, [])
      ∧ sendDataNative st len dataRead status₃ = (false, []) := by
  simp [connectIap2Native, disconnectIap2Native, sendDataNative, h]

/-- Witness for `uninitialized_operations_fail_without_transport_call`:
`sendData(5, [0,1,2,3,4])` and friends with no prior initialization. -/
theorem uninitialized_operations_fail_witness :
    connectIap2Native ⟨none, none⟩ (some [1, 2, 3, 4, 5, 6]) 0 = (false, [])
      ∧ disconnectIap2Native ⟨none, none⟩ (some [1, 2, 3, 4, 5, 6]) 0 = (false, [])
      ∧ sendDataNative ⟨none, none⟩ 5 (some [0, 1, 2, 3, 4]) 0 = (false, []) :=
  uninitialized_operations_fail_without_transport_call ⟨none, none⟩
    (some [1, 2, 3, 4, 5, 6]) (some [1, 2, 3, 4, 5, 6]) (some [0, 1, 2, 3, 4]) 5 0 0 0 rfl

/-- Claim C9: with the interface initialized, an unreadable address or data
array (`GetByteArrayElements` returning NULL) makes `connectIap2Native`,
`disconnectIap2Native` and `sendDataNative` throw an IOException with
`EINVAL` synchronously and return failure, with no transport action in the
trace — the operation is aborted before reaching the transport. -/
theorem unreadable_argument_raises_io_error (st : Iap2State) (i : Nat) (len : Int)
    (status₁ status₂ status₃ : Nat)
    (h : st.sBluetoothIap2Interface = some i) :
    connectIap2Native st none status₁ = (false, [Action.throwIOException EINVAL])
      ∧ disconnectIap2Native st none status₂ = (false, [Action.throwIOException EINVAL])
      ∧ sendDataNative st len none status₃ = (false, [Action.throwIOException EINVAL]) := by
  simp [connectIap2Native, disconnectIap2Native, sendDataNative, h]

/-- Witness for `unreadable_argument_raises_io_error`. -/
theorem unreadable_argument_raises_io_error_witness :
    connectIap2Native ⟨some 1, some 7⟩ none 0 = (false, [Action.throwIOException EINVAL])
      ∧ disconnectIap2Native ⟨some 1, some 7⟩ none 0
          = (false, [Action.throwIOException EINVAL])
      ∧ sendDataNative ⟨some 1, some 7⟩ 5 none 0
          = (false, [Action.throwIOException EINVAL]) :=
  unreadable_argument_raises_io_error ⟨some 1, some 7⟩ 1 5 0 0 0 rfl

/-- Claim C10: when the Bluetooth module is not loaded, `cleanupNative`
returns immediately with the state unchanged and an empty action trace — both
the active interface reference and the listener registration survive, and no
release of either occurs. -/
theorem cleanup_no_module_leaves_state_untouched (st : Iap2State) :
    cleanupNative false st = (st, []) := by
  simp [cleanupNative]

end Claims
